import Mathlib

/-!
Verification of the network-management surface and attach-stream framing of a
Docker Engine HTTP API client library.

The Rust source (src/network.rs, examples/attach.rs) is shallowly embedded:
 * `serde_json::Value` documents become the inductive `Json`;
 * `HashMap<&'static str, Value>` parameter maps become association lists
   (`List (String × Json)`) whose `insert` replaces an existing key in place,
   matching `HashMap::insert` overwrite semantics; the list order stands for
   the map's iteration order;
 * strings that are treated as byte sequences by `url::form_urlencoded`
   become `List Nat` of UTF-8 bytes;
 * an `async` method performing one HTTP round trip becomes a pure function
   from its inputs (plus a daemon model where the response matters) to the
   request it builds and/or the `Except`-typed result it returns.
-/

set_option autoImplicit false

namespace DockerApi

/-- Shallow embedding of a generic JSON document (`serde_json::Value`).
Numbers are embedded as integers: every number this library writes or reads
(`u64` counters, lengths) is integral. -/
inductive Json where
  | null : Json
  | bool (b : Bool) : Json
  | num (n : Int) : Json
  | str (s : String) : Json
  | arr (elems : List Json) : Json
  | obj (fields : List (String × Json)) : Json

/-- `HashMap::insert` on the association-list model: if the key is present its
value is replaced in place, otherwise the pair is appended. -/
def insertParam (k : String) (v : Json) : List (String × Json) → List (String × Json)
  | [] => [(k, v)]
  | (k', v') :: rest => if k' = k then (k, v) :: rest else (k', v') :: insertParam k v rest

/-- `HashMap::get` on the association-list model. -/
def lookupParam (k : String) : List (String × Json) → Option Json
  | [] => none
  | (k', v') :: rest => if k' = k then some v' else lookupParam k rest

/-- The keys of a parameter map, in iteration order. -/
def paramKeys (l : List (String × Json)) : List String :=
  l.map Prod.fst

/-- How many entries of the map carry the key `k` (a `HashMap` always has 0
or 1; the builders must never produce duplicates). -/
def countKey (k : String) (l : List (String × Json)) : Nat :=
  (l.filter (fun p => p.1 = k)).length

/-- Modelled from the spec: the connection handle (`Docker`, defined in the
missing docker.rs) is "an opaque shared handle to the Docker daemon
endpoint" with no behaviour of its own in this layer; it is embedded as a
record holding the endpoint address. -/
structure Docker where
  endpoint : String
  deriving DecidableEq, Repr

/-- `Networks<'docker>`: stateless facade holding the connection handle. -/
structure Networks where
  docker : Docker
  deriving DecidableEq, Repr

/-- `Network<'docker>`: a single-resource client holding the connection
handle and the immutable network id. -/
structure Network where
  docker : Docker
  id : String
  deriving DecidableEq, Repr

/-- `Network::id()` is the getter for the stored id; it is embedded by the
field accessor `Network.id` itself (it returns the field unchanged). -/
def Network.idGetter (n : Network) : String :=
  n.id

/-- `Networks::new(docker)`. -/
def Networks.new (docker : Docker) : Networks :=
  ⟨docker⟩

/-- `Network::new(docker, id)` (`id.into()` is the identity on `String`). -/
def Network.new (docker : Docker) (id : String) : Network :=
  ⟨docker, id⟩

/-- `Networks::get(id)`: pure construction of a scoped handle, delegating to
`Network::new`; no request is built and no I/O is performed. -/
def Networks.get (nets : Networks) (id : String) : Network :=
  Network.new nets.docker id

/-- HTTP methods used by this layer. -/
inductive Method where
  | get : Method
  | post : Method
  | delete : Method
  deriving DecidableEq, Repr

/-- The one HTTP request a client method hands to the transport: method,
path (with query already joined on), and an optional JSON body
(`Payload::Json`). -/
structure Request where
  method : Method
  path : String
  body : Option Json

/-! ## Option builders (network.rs lines 158-257) -/

/-- `NetworkCreateOptions { params: HashMap<&'static str, Value> }`. -/
structure NetworkCreateOptions where
  params : List (String × Json)

/-- `NetworkCreateOptionsBuilder { params: HashMap<&'static str, Value> }`. -/
structure NetworkCreateOptionsBuilder where
  params : List (String × Json)

/-- `NetworkCreateOptionsBuilder::new(name)`: starts the map with
`params.insert("Name", json!(name))`. -/
def NetworkCreateOptionsBuilder.new (name : String) : NetworkCreateOptionsBuilder :=
  ⟨[("Name", Json.str name)]⟩

/-- Modelled from the spec: `impl_str_field!(driver: D => "Driver")` expands
to a setter that is not under src/; per the spec "each setter inserts or
overwrites one fixed key in an internal mapping and returns the same builder
for chaining", so it is `self.params.insert("Driver", json!(driver))`. -/
def NetworkCreateOptionsBuilder.driver (b : NetworkCreateOptionsBuilder)
    (d : String) : NetworkCreateOptionsBuilder :=
  ⟨insertParam "Driver" (Json.str d) b.params⟩

/-- Modelled from the spec: `impl_map_field!(labels: L => "Labels")` expands
to a setter that is not under src/; per the spec it inserts or overwrites
the one fixed key `"Labels"` with the given map as a JSON object. -/
def NetworkCreateOptionsBuilder.labels (b : NetworkCreateOptionsBuilder)
    (ls : List (String × String)) : NetworkCreateOptionsBuilder :=
  ⟨insertParam "Labels" (Json.obj (ls.map fun p => (p.1, Json.str p.2))) b.params⟩

/-- `NetworkCreateOptionsBuilder::build()`: clones the current parameter map
into a fresh `NetworkCreateOptions` value. -/
def NetworkCreateOptionsBuilder.build (b : NetworkCreateOptionsBuilder) :
    NetworkCreateOptions :=
  ⟨b.params⟩

/-- `NetworkCreateOptions::builder(name)` delegates to
`NetworkCreateOptionsBuilder::new`. -/
def NetworkCreateOptions.builder (name : String) : NetworkCreateOptionsBuilder :=
  NetworkCreateOptionsBuilder.new name

/-- `NetworkCreateOptions::serialize()` is `serde_json::to_string(&self.params)`:
the JSON document it writes is the object holding exactly the map's entries
(the embedding keeps the document as a `Json` value; printing it to a string
and reparsing as generic JSON is the identity on the document and belongs to
the out-of-scope serde_json layer). It cannot fail on these documents. -/
def NetworkCreateOptions.serializeJson (o : NetworkCreateOptions) : Json :=
  Json.obj o.params

/-- `ContainerConnectionOptions { params: HashMap<&'static str, Value> }`. -/
structure ContainerConnectionOptions where
  params : List (String × Json)

/-- `ContainerConnectionOptionsBuilder { params: HashMap<&'static str, Value> }`. -/
structure ContainerConnectionOptionsBuilder where
  params : List (String × Json)

/-- `ContainerConnectionOptionsBuilder::new(container_id)`: starts the map
with `params.insert("Container", json!(container_id))`. -/
def ContainerConnectionOptionsBuilder.new (containerId : String) :
    ContainerConnectionOptionsBuilder :=
  ⟨[("Container", Json.str containerId)]⟩

/-- `ContainerConnectionOptionsBuilder::aliases(aliases)`: inserts
`"EndpointConfig" ↦ { "Aliases": [..] }` (network.rs lines 235-245). -/
def ContainerConnectionOptionsBuilder.aliases (b : ContainerConnectionOptionsBuilder)
    (as' : List String) : ContainerConnectionOptionsBuilder :=
  ⟨insertParam "EndpointConfig"
    (Json.obj [("Aliases", Json.arr (as'.map Json.str))]) b.params⟩

/-- `ContainerConnectionOptionsBuilder::force()`: inserts `"Force" ↦ true`
(network.rs lines 247-250). -/
def ContainerConnectionOptionsBuilder.force (b : ContainerConnectionOptionsBuilder) :
    ContainerConnectionOptionsBuilder :=
  ⟨insertParam "Force" (Json.bool true) b.params⟩

/-- `ContainerConnectionOptionsBuilder::build()`: clones the current map into
a fresh `ContainerConnectionOptions` value. -/
def ContainerConnectionOptionsBuilder.build (b : ContainerConnectionOptionsBuilder) :
    ContainerConnectionOptions :=
  ⟨b.params⟩

/-- `ContainerConnectionOptions::serialize()` is
`serde_json::to_string(&self.params)`, embedded as the JSON object document
holding exactly the map's entries (as for `NetworkCreateOptions`). -/
def ContainerConnectionOptions.serializeJson (o : ContainerConnectionOptions) : Json :=
  Json.obj o.params

/-- One call to a `NetworkCreateOptionsBuilder` setter, used to quantify over
every way a builder can be driven after `new`. -/
inductive CreateOp where
  | driver (d : String) : CreateOp
  | labels (ls : List (String × String)) : CreateOp

/-- The fixed map key a `CreateOp` writes. -/
def CreateOp.key : CreateOp → String
  | .driver _ => "Driver"
  | .labels _ => "Labels"

/-- Apply one builder setter. -/
def CreateOp.apply (op : CreateOp) (b : NetworkCreateOptionsBuilder) :
    NetworkCreateOptionsBuilder :=
  match op with
  | .driver d => b.driver d
  | .labels ls => b.labels ls

/-- Apply a chain of setter calls left to right. -/
def applyCreateOps (ops : List CreateOp) (b : NetworkCreateOptionsBuilder) :
    NetworkCreateOptionsBuilder :=
  ops.foldl (fun b op => op.apply b) b

/-- The JSON value a `CreateOp` writes under its fixed key. -/
def CreateOp.value : CreateOp → Json
  | .driver d => Json.str d
  | .labels ls => Json.obj (ls.map fun p => (p.1, Json.str p.2))

/-- One call to a `ContainerConnectionOptionsBuilder` setter. -/
inductive ConnOp where
  | aliases (as' : List String) : ConnOp
  | force : ConnOp

/-- The fixed map key a `ConnOp` writes. -/
def ConnOp.key : ConnOp → String
  | .aliases _ => "EndpointConfig"
  | .force => "Force"

/-- The JSON value a `ConnOp` writes under its fixed key. -/
def ConnOp.value : ConnOp → Json
  | .aliases as' => Json.obj [("Aliases", Json.arr (as'.map Json.str))]
  | .force => Json.bool true

/-- Apply one builder setter. -/
def ConnOp.apply (op : ConnOp) (b : ContainerConnectionOptionsBuilder) :
    ContainerConnectionOptionsBuilder :=
  match op with
  | .aliases as' => b.aliases as'
  | .force => b.force

/-- Apply a chain of setter calls left to right. -/
def applyConnOps (ops : List ConnOp) (b : ContainerConnectionOptionsBuilder) :
    ContainerConnectionOptionsBuilder :=
  ops.foldl (fun b op => op.apply b) b

/-! ## Request construction for the Network methods (network.rs lines 88-135) -/

/-- `Network::inspect` issues `GET /networks/{id}` (`self.docker.get_json`,
network.rs lines 91-95). -/
def Network.inspectRequest (n : Network) : Request :=
  { method := Method.get, path := "/networks/" ++ n.id, body := none }

/-- `Network::do_connection(segment, opts)`: serializes `opts` to a JSON body
and POSTs it to `/networks/{id}/{segment}` (network.rs lines 121-134). -/
def Network.do_connection (n : Network) (segment : String)
    (opts : ContainerConnectionOptions) : Request :=
  { method := Method.post
    path := "/networks/" ++ n.id ++ "/" ++ segment
    body := some opts.serializeJson }

/-- `Network::connect(opts)` is `self.do_connection("connect", opts)`. -/
def Network.connect (n : Network) (opts : ContainerConnectionOptions) : Request :=
  n.do_connection "connect" opts

/-- `Network::disconnect(opts)` is `self.do_connection("disconnect", opts)`. -/
def Network.disconnect (n : Network) (opts : ContainerConnectionOptions) : Request :=
  n.do_connection "disconnect" opts

/-- The success value of `connect`/`disconnect`: the `Ok(())` at the end of
`do_connection` discards the transport's success payload. -/
def connectionSuccess (res : Except String String) : Except String Unit :=
  match res with
  | .ok _ => .ok ()
  | .error e => .error e

/-- Modelled from the spec: the request `connect`/`disconnect` is specified
to build — "POST to a sub-path keyed by an action segment
(connect/disconnect)" with the serialized options as JSON body — stated from
the spec's words, independently of `do_connection`, for the refinement
comparison. -/
def specActionRequest (n : Network) (action : String)
    (opts : ContainerConnectionOptions) : Request :=
  { method := Method.post
    path := "/networks/" ++ n.id ++ "/" ++ action
    body := some (Json.obj opts.params) }

/-! ## `url::form_urlencoded` (used by `NetworkListOptions::serialize`)

Strings are handled here as their UTF-8 byte sequences (`List Nat`, every
byte < 256). `form_urlencoded::Serializer::extend_pairs` writes
`k₁=v₁&k₂=v₂&…` where each key/value byte is kept verbatim when it is ASCII
alphanumeric or one of `*-._`, written as `+` when it is the space byte, and
percent-encoded as `%XX` (uppercase hex) otherwise. -/

/-- The bytes `form_urlencoded` leaves unescaped: ASCII alphanumerics and
`*` (42), `-` (45), `.` (46), `_` (95). -/
def formUnreserved (b : Nat) : Bool :=
  (48 ≤ b && b ≤ 57) || (65 ≤ b && b ≤ 90) || (97 ≤ b && b ≤ 122) ||
    b == 42 || b == 45 || b == 46 || b == 95

/-- Uppercase hex digit character for a nibble. -/
def hexDigitChar (n : Nat) : Nat :=
  if n < 10 then 48 + n else 55 + n

/-- Value of a hex digit character (inverse of `hexDigitChar` on its image). -/
def hexVal (c : Nat) : Nat :=
  if c ≤ 57 then c - 48 else c - 55

/-- Encoding of one byte: verbatim, `+` (43) for space (32), or `%XX` with
`%` = 37. -/
def encodeByte (b : Nat) : List Nat :=
  if formUnreserved b then [b]
  else if b = 32 then [43]
  else [37, hexDigitChar (b / 16), hexDigitChar (b % 16)]

/-- Encoding of a byte string. -/
def encBytes : List Nat → List Nat
  | [] => []
  | b :: bs => encodeByte b ++ encBytes bs

/-- One `key=value` component; `=` is byte 61. -/
def encodePair (p : List Nat × List Nat) : List Nat :=
  encBytes p.1 ++ 61 :: encBytes p.2

/-- Join components with `&` (byte 38), as `extend_pairs` does. -/
def joinAmp : List (List Nat) → List Nat
  | [] => []
  | [x] => x
  | x :: y :: xs => x ++ 38 :: joinAmp (y :: xs)

/-- `NetworkListOptions { params: HashMap<&'static str, String> }`; the list
holds the map's pairs (as UTF-8 bytes) in iteration order. -/
structure NetworkListOptions where
  params : List (List Nat × List Nat)
  deriving DecidableEq, Repr

/-- `NetworkListOptions::serialize()` (network.rs lines 145-155): `None` when
`self.params.is_empty()`, otherwise the `form_urlencoded` query built by
`extend_pairs(&self.params).finish()`. -/
def NetworkListOptions.serialize (o : NetworkListOptions) : Option (List Nat) :=
  if o.params = [] then none
  else some (joinAmp (o.params.map encodePair))

/-- Independent reading of a query string, used to state that the query holds
exactly the inserted pairs: split on `&`, split each component at the first
`=`, percent-decode both halves. Decoding maps `+` back to space and `%XX`
back to the byte; it is defined on all inputs (a dangling `%` decodes to
nothing) but is only ever applied to encoder output here. -/
def decodeBytes : List Nat → List Nat
  | [] => []
  | b :: rest =>
    if b = 43 then 32 :: decodeBytes rest
    else if b = 37 then
      match rest with
      | h :: l :: rest' => (hexVal h * 16 + hexVal l) :: decodeBytes rest'
      | _ => []
    else b :: decodeBytes rest

/-- Split a byte string on every occurrence of `sep`. -/
def splitOnByte (sep : Nat) : List Nat → List (List Nat)
  | [] => [[]]
  | b :: rest =>
    if b = sep then [] :: splitOnByte sep rest
    else
      match splitOnByte sep rest with
      | [] => [[b]]
      | g :: gs => (b :: g) :: gs

/-- Split a byte string at the first occurrence of `sep` (dropping it). -/
def splitFirstByte (sep : Nat) : List Nat → List Nat × List Nat
  | [] => ([], [])
  | b :: rest =>
    if b = sep then ([], rest)
    else
      let p := splitFirstByte sep rest
      (b :: p.1, p.2)

/-- Parse a `form_urlencoded` query back into its key/value pairs. -/
def parseQuery (q : List Nat) : List (List Nat × List Nat) :=
  (splitOnByte 38 q).map fun part =>
    let p := splitFirstByte 61 part
    (decodeBytes p.1, decodeBytes p.2)

/-- All bytes of all pairs are genuine bytes (< 256); true of the UTF-8
bytes of any Rust string. -/
def bytesOk (pairs : List (List Nat × List Nat)) : Prop :=
  ∀ p ∈ pairs, (∀ b ∈ p.1, b < 256) ∧ (∀ b ∈ p.2, b < 256)

/-- `"/networks"` as UTF-8 bytes. -/
def networksPathBytes : List Nat :=
  [47, 110, 101, 116, 119, 111, 114, 107, 115]

/-- `vec.join("?")` on the path components; `?` is byte 63. -/
def joinQuestionMark : List (List Nat) → List Nat
  | [] => []
  | [x] => x
  | x :: y :: xs => x ++ 63 :: joinQuestionMark (y :: xs)

/-- The path-with-query `Networks::list` sends its GET to (network.rs lines
35-41): start from `vec!["/networks"]`, push the serialized options if any,
join with `"?"`. -/
def Networks.listPath (opts : NetworkListOptions) : List Nat :=
  joinQuestionMark
    (networksPathBytes ::
      (match opts.serialize with
       | some q => [q]
       | none => []))

/-! ## Response structures and their serde decoders (network.rs lines 259-351) -/

/-- `Ipam` (PascalCase field names on the wire: Driver, Config, Options). -/
structure Ipam where
  driver : String
  config : List (List (String × String))
  options : Option (List (String × String))
  deriving DecidableEq, Repr

/-- `NetworkContainerDetails` (wire names EndpointID, MacAddress,
IPv4Address, IPv6Address). -/
structure NetworkContainerDetails where
  endpoint_id : String
  mac_address : String
  ipv4_address : String
  ipv6_address : String
  deriving DecidableEq, Repr

/-- `NetworkDetails` (network.rs lines 316-332): the NetworkInspect response
shape, PascalCase wire names plus renames EnableIPv6 and IPAM. -/
structure NetworkDetails where
  name : String
  id : String
  scope : String
  driver : String
  enable_ipv6 : Bool
  ipam : Ipam
  internal : Bool
  attachable : Bool
  containers : List (String × NetworkContainerDetails)
  options : Option (List (String × String))
  labels : Option (List (String × String))
  deriving DecidableEq, Repr

/-- `NetworkInfo` (network.rs lines 296-306): eight required `u64` counters;
no `rename_all`, so the wire names are the snake_case field names. -/
structure NetworkInfo where
  rx_dropped : Nat
  rx_bytes : Nat
  rx_errors : Nat
  tx_packets : Nat
  tx_dropped : Nat
  rx_packets : Nat
  tx_errors : Nat
  tx_bytes : Nat
  deriving DecidableEq, Repr

/-- Field lookup on a JSON object (serde ignores fields it does not look up,
so unknown extra fields never fail a decoder built from these lookups). -/
def Json.getField (j : Json) (k : String) : Option Json :=
  match j with
  | .obj fields => lookupParam k fields
  | _ => none

/-- serde: decode a JSON string. -/
def decodeString : Json → Option String
  | .str s => some s
  | _ => none

/-- serde: decode a JSON bool. -/
def decodeBool : Json → Option Bool
  | .bool b => some b
  | _ => none

/-- serde: decode a `u64` (a non-negative integral number below 2^64). -/
def decodeU64 : Json → Option Nat
  | .num n => if 0 ≤ n ∧ n < 18446744073709551616 then some n.toNat else none
  | _ => none

/-- serde: decode a `HashMap<String, String>`. -/
def decodeStrMap : Json → Option (List (String × String))
  | .obj fields => fields.mapM fun p => (decodeString p.2).map fun s => (p.1, s)
  | _ => none

/-- serde: decode an `Option<HashMap<String, String>>` field — `None` when
the field is absent or `null`, otherwise the decoded map. -/
def decodeOptStrMapField (fields : List (String × Json)) (k : String) :
    Option (Option (List (String × String))) :=
  match lookupParam k fields with
  | none => some none
  | some Json.null => some none
  | some v => (decodeStrMap v).map some

/-- serde decoder for `Ipam`. -/
def decodeIpam (j : Json) : Option Ipam :=
  match j with
  | .obj fields => do
    let d ← lookupParam "Driver" fields >>= decodeString
    let cfg ←
      match lookupParam "Config" fields with
      | some (Json.arr xs) => xs.mapM decodeStrMap
      | _ => none
    let opts ← decodeOptStrMapField fields "Options"
    some ⟨d, cfg, opts⟩
  | _ => none

/-- serde decoder for `NetworkContainerDetails`. -/
def decodeNetworkContainerDetails (j : Json) : Option NetworkContainerDetails :=
  match j with
  | .obj fields => do
    let e ← lookupParam "EndpointID" fields >>= decodeString
    let m ← lookupParam "MacAddress" fields >>= decodeString
    let v4 ← lookupParam "IPv4Address" fields >>= decodeString
    let v6 ← lookupParam "IPv6Address" fields >>= decodeString
    some ⟨e, m, v4, v6⟩
  | _ => none

/-- serde decoder for `HashMap<String, NetworkContainerDetails>`. -/
def decodeContainers (j : Json) : Option (List (String × NetworkContainerDetails)) :=
  match j with
  | .obj fields =>
    fields.mapM fun p => (decodeNetworkContainerDetails p.2).map fun c => (p.1, c)
  | _ => none

/-- serde decoder for `NetworkDetails` (the documented NetworkInspect
response shape). -/
def decodeNetworkDetails (j : Json) : Option NetworkDetails :=
  match j with
  | .obj fields => do
    let name ← lookupParam "Name" fields >>= decodeString
    let id ← lookupParam "Id" fields >>= decodeString
    let scope ← lookupParam "Scope" fields >>= decodeString
    let driver ← lookupParam "Driver" fields >>= decodeString
    let e6 ← lookupParam "EnableIPv6" fields >>= decodeBool
    let ipam ← lookupParam "IPAM" fields >>= decodeIpam
    let internal ← lookupParam "Internal" fields >>= decodeBool
    let attachable ← lookupParam "Attachable" fields >>= decodeBool
    let containers ← lookupParam "Containers" fields >>= decodeContainers
    let opts ← decodeOptStrMapField fields "Options"
    let labels ← decodeOptStrMapField fields "Labels"
    some ⟨name, id, scope, driver, e6, ipam, internal, attachable, containers, opts, labels⟩
  | _ => none

/-- serde decoder for `NetworkInfo`: all eight snake_case `u64` fields are
required, so a body without them fails to decode. -/
def decodeNetworkInfo (j : Json) : Option NetworkInfo :=
  match j with
  | .obj fields => do
    let rxd ← lookupParam "rx_dropped" fields >>= decodeU64
    let rxb ← lookupParam "rx_bytes" fields >>= decodeU64
    let rxe ← lookupParam "rx_errors" fields >>= decodeU64
    let txp ← lookupParam "tx_packets" fields >>= decodeU64
    let txd ← lookupParam "tx_dropped" fields >>= decodeU64
    let rxp ← lookupParam "rx_packets" fields >>= decodeU64
    let txe ← lookupParam "tx_errors" fields >>= decodeU64
    let txb ← lookupParam "tx_bytes" fields >>= decodeU64
    some ⟨rxd, rxb, rxe, txp, txd, rxp, txe, txb⟩
  | _ => none

/-- Modelled from the spec: the error taxonomy of the missing errors.rs —
TransportError, ApiError{status, message}, SerializationError, DecodeError,
ProtocolViolation. An unknown id yields the ApiError with a not-found
indication (HTTP 404). -/
inductive Error where
  | transport : Error
  | api (status : Nat) (message : String) : Error
  | serialization : Error
  | decode : Error
  | protocolViolation : Error
  deriving DecidableEq, Repr

/-- Modelled from the spec: `Docker::get_json` of the missing transport —
"fails with ApiError if the daemon returns non-2xx, or DecodeError if the
JSON body does not match the expected shape". The daemon is modelled for the
inspect endpoint as a partial map from network id to the inspect response
body; an unknown id answers 404. `Network::inspect` (network.rs lines 91-95)
sends `GET /networks/{id}` and decodes the body at its declared return type
`NetworkInfo`. -/
def Network.inspect (networks : String → Option Json) (n : Network) :
    Except Error NetworkInfo :=
  match networks n.id with
  | none => Except.error (Error.api 404 ("network " ++ n.id ++ " not found"))
  | some body =>
    match decodeNetworkInfo body with
    | some info => Except.ok info
    | none => Except.error Error.decode

/-! ## The attach stream (examples/attach.rs; framing from the spec) -/

/-- `TtyChunk`: the tagged chunk type the attach read-half yields, as matched
on by `print_chunk` in examples/attach.rs — one of StdIn, StdOut, StdErr,
each carrying payload bytes. -/
inductive TtyChunk where
  | stdIn (bytes : List Nat) : TtyChunk
  | stdOut (bytes : List Nat) : TtyChunk
  | stdErr (bytes : List Nat) : TtyChunk
  deriving DecidableEq, Repr

/-- What one `print_chunk` call does, as an observable outcome. -/
inductive PrintOutcome where
  | stdoutLine (bytes : List Nat) : PrintOutcome
  | stderrLine (bytes : List Nat) : PrintOutcome
  | panickedUnreachable : PrintOutcome
  deriving DecidableEq, Repr

/-- `print_chunk` (examples/attach.rs lines 26-36): StdOut is printed to
stdout, StdErr to stderr, and StdIn hits the `unreachable!()` arm — the
process panics; the chunk is treated as an impossible case, not as an error
value. -/
def print_chunk : TtyChunk → PrintOutcome
  | .stdOut bytes => .stdoutLine bytes
  | .stdErr bytes => .stderrLine bytes
  | .stdIn _ => .panickedUnreachable

/-- Big-endian 32-bit value of four bytes. -/
def be32 (a b c d : Nat) : Nat :=
  ((a * 256 + b) * 256 + c) * 256 + d

/-- The four big-endian bytes of a 32-bit length. -/
def be32Bytes (n : Nat) : List Nat :=
  [n / 16777216 % 256, n / 65536 % 256, n / 256 % 256, n % 256]

/-- The chunk constructor for a stream-type discriminant: 0 is StdIn, 1 is
StdOut, 2 is StdErr; anything else is not a known stream type. -/
def tagOf : Nat → Option (List Nat → TtyChunk)
  | 0 => some TtyChunk.stdIn
  | 1 => some TtyChunk.stdOut
  | 2 => some TtyChunk.stdErr
  | _ => none

/-- Modelled from the spec (recursion on a fuel bound): one step per frame of
the demultiplexer loop over `fuel` frames at most. -/
def demuxGo : Nat → List Nat → Option (List TtyChunk)
  | _, [] => some []
  | 0, _ :: _ => none
  | fuel + 1, t :: a :: b :: c :: d :: rest =>
    let len := be32 a b c d
    if len ≤ rest.length then
      match tagOf t with
      | some mk =>
        match demuxGo fuel (rest.drop len) with
        | some chunks => some (mk (rest.take len) :: chunks)
        | none => none
      | none => none
    else none
  | _ + 1, _ => none

/-- Modelled from the spec: the attach-stream demultiplexer (its code lives
in the conn module, not under src/). Per the spec, a frame is "1-byte stream
type + 4-byte big-endian length + payload" and the output is "a lazy
sequence of tagged chunks, one of StdOut(bytes), StdErr(bytes),
StdIn(bytes), preserving payload boundaries and order as received"; a
truncated tail or an unknown discriminant is a decode failure (`none`). The
fuel `l.length` bounds the frame count: every frame consumes at least one
byte. -/
def demux (l : List Nat) : Option (List TtyChunk) :=
  demuxGo l.length l

/-- The wire encoding of one frame: discriminant, 4-byte big-endian payload
length, payload. -/
def encodeFrame (t : Nat) (payload : List Nat) : List Nat :=
  t :: (be32Bytes payload.length ++ payload)

/-- The wire encoding of a frame sequence. -/
def encodeFrames : List (Nat × List Nat) → List Nat
  | [] => []
  | f :: fs => encodeFrame f.1 f.2 ++ encodeFrames fs

/-- A well-formed frame: known discriminant and a payload whose length fits
the 4-byte length field. -/
def wellFormedFrames (frames : List (Nat × List Nat)) : Prop :=
  ∀ f ∈ frames, f.1 < 3 ∧ f.2.length < 4294967296

/-- The chunk a well-formed frame stands for. -/
def tagChunk (f : Nat × List Nat) : TtyChunk :=
  match f.1 with
  | 0 => TtyChunk.stdIn f.2
  | 1 => TtyChunk.stdOut f.2
  | _ => TtyChunk.stdErr f.2

/-- A NetworkInspect response body for the default bridge network, following
the Docker Engine API reference the code links to, including one
undocumented extra field (`Created`) that serde decoders ignore. -/
def sampleInspectBody : Json :=
  Json.obj
    [ ("Name", Json.str "bridge"),
      ("Id", Json.str "f2de39df4171"),
      ("Created", Json.str "2016-10-19T04:33:30Z"),
      ("Scope", Json.str "local"),
      ("Driver", Json.str "bridge"),
      ("EnableIPv6", Json.bool false),
      ("IPAM", Json.obj
        [ ("Driver", Json.str "default"),
          ("Config", Json.arr [Json.obj [("Subnet", Json.str "172.17.0.0/16")]]),
          ("Options", Json.null) ]),
      ("Internal", Json.bool false),
      ("Attachable", Json.bool false),
      ("Containers", Json.obj []),
      ("Options", Json.obj [("com.docker.network.bridge.default_bridge", Json.str "true")]),
      ("Labels", Json.obj []) ]

/-- The parsed form of `sampleInspectBody` at the documented response type. -/
def sampleDetails : NetworkDetails :=
  { name := "bridge"
    id := "f2de39df4171"
    scope := "local"
    driver := "bridge"
    enable_ipv6 := false
    ipam := { driver := "default"
              config := [[("Subnet", "172.17.0.0/16")]]
              options := none }
    internal := false
    attachable := false
    containers := []
    options := some [("com.docker.network.bridge.default_bridge", "true")]
    labels := some [] }

/-- A daemon knowing exactly one network, `bridge`, whose inspect body is the
documented one. -/
def sampleDaemon : String → Option Json :=
  fun id => if id = "bridge" then some sampleInspectBody else none

/-- Top-level key list of a JSON document (empty for non-objects). -/
def jsonObjKeys : Json → List String
  | .obj fields => paramKeys fields
  | _ => []

/-- The read loop of examples/attach.rs (lines 16-21): every chunk the
read-half yields is handed to `print_chunk`. -/
def attachExampleRun (bytes : List Nat) : Option (List PrintOutcome) :=
  (demux bytes).map fun chunks => chunks.map print_chunk

/-! ## Lemmas about the parameter-map operations -/

@[simp]
theorem paramKeys_nil : paramKeys [] = [] := rfl

@[simp]
theorem paramKeys_cons (p : String × Json) (l : List (String × Json)) :
    paramKeys (p :: l) = p.1 :: paramKeys l := rfl

@[simp]
theorem insertParam_nil (k : String) (v : Json) : insertParam k v [] = [(k, v)] := rfl

theorem insertParam_cons (k : String) (v : Json) (p : String × Json)
    (l : List (String × Json)) :
    insertParam k v (p :: l) =
      if p.1 = k then (k, v) :: l else p :: insertParam k v l := by
  cases p
  simp [insertParam]

theorem mem_paramKeys_insertParam (k a : String) (v : Json) (l : List (String × Json)) :
    a ∈ paramKeys (insertParam k v l) ↔ a = k ∨ a ∈ paramKeys l := by
  induction l with
  | nil => simp
  | cons p rest ih =>
    by_cases hk : p.1 = k
    · simp [insertParam_cons, hk]
    · simp [insertParam_cons, hk, ih]
      tauto

theorem lookupParam_cons (k : String) (p : String × Json) (l : List (String × Json)) :
    lookupParam k (p :: l) = if p.1 = k then some p.2 else lookupParam k l := by
  cases p
  simp [lookupParam]

theorem lookupParam_insertParam_self (k : String) (v : Json) (l : List (String × Json)) :
    lookupParam k (insertParam k v l) = some v := by
  induction l with
  | nil => simp [lookupParam_cons]
  | cons p rest ih =>
    by_cases hk : p.1 = k
    · simp [insertParam_cons, hk, lookupParam_cons]
    · simp [insertParam_cons, hk, lookupParam_cons, ih]

theorem insertParam_insertParam_same (k : String) (v₁ v₂ : Json) (l : List (String × Json)) :
    insertParam k v₂ (insertParam k v₁ l) = insertParam k v₂ l := by
  induction l with
  | nil => simp [insertParam_cons]
  | cons p rest ih =>
    by_cases hk : p.1 = k
    · simp [insertParam_cons, hk]
    · simp [insertParam_cons, hk, ih]

theorem countKey_cons (k : String) (p : String × Json) (l : List (String × Json)) :
    countKey k (p :: l) = (if p.1 = k then 1 else 0) + countKey k l := by
  by_cases hk : p.1 = k <;> simp [countKey, List.filter_cons, hk, Nat.add_comm]

theorem countKey_eq_zero_of_not_mem (k : String) (l : List (String × Json))
    (h : k ∉ paramKeys l) : countKey k l = 0 := by
  induction l with
  | nil => simp [countKey]
  | cons p rest ih =>
    simp at h
    have hp : ¬ p.1 = k := fun e => h.1 e.symm
    simp [countKey_cons, hp, ih h.2]

theorem countKey_insertParam_self (k : String) (v : Json) (l : List (String × Json))
    (h : (paramKeys l).Nodup) : countKey k (insertParam k v l) = 1 := by
  induction l with
  | nil => simp [countKey_cons, countKey]
  | cons p rest ih =>
    simp [List.nodup_cons] at h
    by_cases hk : p.1 = k
    · have hm : k ∉ paramKeys rest := hk ▸ h.1
      simp [insertParam_cons, hk, countKey_cons,
        countKey_eq_zero_of_not_mem k rest hm]
    · simp [insertParam_cons, hk, countKey_cons, ih h.2]

theorem paramKeys_nodup_insertParam (k : String) (v : Json) (l : List (String × Json))
    (h : (paramKeys l).Nodup) : (paramKeys (insertParam k v l)).Nodup := by
  induction l with
  | nil => simp
  | cons p rest ih =>
    simp [List.nodup_cons] at h
    by_cases hk : p.1 = k
    · simp [insertParam_cons, hk, List.nodup_cons]
      exact ⟨hk ▸ h.1, h.2⟩
    · simp [insertParam_cons, hk, List.nodup_cons]
      refine ⟨?_, ih h.2⟩
      intro m
      rcases (mem_paramKeys_insertParam k p.1 v rest).1 m with h1 | h2
      · exact hk h1
      · exact h.1 h2

/-! ## Lemmas about driving the builders -/

@[simp]
theorem applyCreateOps_nil (b : NetworkCreateOptionsBuilder) : applyCreateOps [] b = b := rfl

@[simp]
theorem applyCreateOps_cons (op : CreateOp) (ops : List CreateOp)
    (b : NetworkCreateOptionsBuilder) :
    applyCreateOps (op :: ops) b = applyCreateOps ops (op.apply b) := rfl

@[simp]
theorem applyConnOps_nil (b : ContainerConnectionOptionsBuilder) : applyConnOps [] b = b := rfl

@[simp]
theorem applyConnOps_cons (op : ConnOp) (ops : List ConnOp)
    (b : ContainerConnectionOptionsBuilder) :
    applyConnOps (op :: ops) b = applyConnOps ops (op.apply b) := rfl

theorem mem_paramKeys_createOp_apply (op : CreateOp) (b : NetworkCreateOptionsBuilder)
    (a : String) :
    a ∈ paramKeys (op.apply b).params ↔ a = op.key ∨ a ∈ paramKeys b.params := by
  cases op <;>
    simp [CreateOp.apply, CreateOp.key, NetworkCreateOptionsBuilder.driver,
      NetworkCreateOptionsBuilder.labels, mem_paramKeys_insertParam]

theorem mem_paramKeys_applyCreateOps (ops : List CreateOp) (b : NetworkCreateOptionsBuilder)
    (a : String) :
    a ∈ paramKeys (applyCreateOps ops b).params ↔
      (∃ op ∈ ops, op.key = a) ∨ a ∈ paramKeys b.params := by
  induction ops generalizing b with
  | nil => simp
  | cons op ops ih =>
    rw [applyCreateOps_cons, ih, mem_paramKeys_createOp_apply]
    constructor
    · rintro (⟨o, ho, hk⟩ | hap)
      · exact Or.inl ⟨o, List.mem_cons_of_mem _ ho, hk⟩
      · rcases hap with h1 | h2
        · exact Or.inl ⟨op, List.mem_cons_self _ _, h1.symm⟩
        · exact Or.inr h2
    · rintro (⟨o, ho, hk⟩ | hb)
      · rcases List.mem_cons.1 ho with rfl | ho'
        · exact Or.inr (Or.inl hk.symm)
        · exact Or.inl ⟨o, ho', hk⟩
      · exact Or.inr (Or.inr hb)

theorem nodup_paramKeys_createOp_apply (op : CreateOp) (b : NetworkCreateOptionsBuilder)
    (h : (paramKeys b.params).Nodup) : (paramKeys (op.apply b).params).Nodup := by
  cases op <;>
    simp [CreateOp.apply, NetworkCreateOptionsBuilder.driver,
      NetworkCreateOptionsBuilder.labels] <;>
    exact paramKeys_nodup_insertParam _ _ _ h

theorem nodup_paramKeys_applyCreateOps (ops : List CreateOp)
    (b : NetworkCreateOptionsBuilder) (h : (paramKeys b.params).Nodup) :
    (paramKeys (applyCreateOps ops b).params).Nodup := by
  induction ops generalizing b with
  | nil => simpa
  | cons op ops ih => exact ih _ (nodup_paramKeys_createOp_apply op b h)

theorem nodup_paramKeys_connOp_apply (op : ConnOp) (b : ContainerConnectionOptionsBuilder)
    (h : (paramKeys b.params).Nodup) : (paramKeys (op.apply b).params).Nodup := by
  cases op <;>
    simp [ConnOp.apply, ContainerConnectionOptionsBuilder.aliases,
      ContainerConnectionOptionsBuilder.force] <;>
    exact paramKeys_nodup_insertParam _ _ _ h

theorem nodup_paramKeys_applyConnOps (ops : List ConnOp)
    (b : ContainerConnectionOptionsBuilder) (h : (paramKeys b.params).Nodup) :
    (paramKeys (applyConnOps ops b).params).Nodup := by
  induction ops generalizing b with
  | nil => simpa
  | cons op ops ih => exact ih _ (nodup_paramKeys_connOp_apply op b h)

theorem createOp_apply_params (op : CreateOp) (b : NetworkCreateOptionsBuilder) :
    (op.apply b).params = insertParam op.key op.value b.params := by
  cases op <;> rfl

theorem connOp_apply_params (op : ConnOp) (b : ContainerConnectionOptionsBuilder) :
    (op.apply b).params = insertParam op.key op.value b.params := by
  cases op <;> rfl

/-! ## Lemmas about the form_urlencoded round trip -/

theorem hexVal_hexDigitChar (n : Nat) (h : n < 16) : hexVal (hexDigitChar n) = n := by
  simp only [hexVal, hexDigitChar]
  split_ifs <;> omega

theorem hexDigitChar_ne (n : Nat) (h : n < 16) :
    hexDigitChar n ≠ 38 ∧ hexDigitChar n ≠ 61 ∧ hexDigitChar n ≠ 43 ∧ hexDigitChar n ≠ 37 := by
  simp only [hexDigitChar]
  split_ifs <;> omega

theorem formUnreserved_bounds (b : Nat) (h : formUnreserved b = true) :
    b ≠ 38 ∧ b ≠ 61 ∧ b ≠ 43 ∧ b ≠ 37 ∧ b ≠ 32 := by
  simp [formUnreserved] at h
  omega

theorem decodeBytes_plus (rest : List Nat) :
    decodeBytes (43 :: rest) = 32 :: decodeBytes rest := by
  rw [decodeBytes.eq_def]
  simp

theorem decodeBytes_percent (h l : Nat) (rest : List Nat) :
    decodeBytes (37 :: h :: l :: rest) = (hexVal h * 16 + hexVal l) :: decodeBytes rest := by
  rw [decodeBytes.eq_def]
  simp

theorem decodeBytes_lit (b : Nat) (h₁ : b ≠ 43) (h₂ : b ≠ 37) (rest : List Nat) :
    decodeBytes (b :: rest) = b :: decodeBytes rest := by
  rw [decodeBytes.eq_def]
  simp [h₁, h₂]

theorem decodeBytes_encodeByte (b : Nat) (hb : b < 256) (rest : List Nat) :
    decodeBytes (encodeByte b ++ rest) = b :: decodeBytes rest := by
  simp only [encodeByte]
  split_ifs with h₁ h₂
  · have h := formUnreserved_bounds b h₁
    simpa using decodeBytes_lit b h.2.2.1 h.2.2.2.1 rest
  · subst h₂
    simpa using decodeBytes_plus rest
  · have hd : b / 16 < 16 := by omega
    have hm : b % 16 < 16 := by omega
    simp only [List.cons_append, List.nil_append]
    rw [decodeBytes_percent, hexVal_hexDigitChar _ hd, hexVal_hexDigitChar _ hm]
    congr 1
    omega

theorem decodeBytes_encBytes (bs : List Nat) (h : ∀ b ∈ bs, b < 256) :
    decodeBytes (encBytes bs) = bs := by
  induction bs with
  | nil => rfl
  | cons b bs ih =>
    simp only [encBytes]
    rw [decodeBytes_encodeByte b (h b (List.mem_cons_self _ _)),
      ih fun x hx => h x (List.mem_cons_of_mem _ hx)]

theorem mem_encodeByte_ne (b : Nat) (hb : b < 256) :
    ∀ x ∈ encodeByte b, x ≠ 38 ∧ x ≠ 61 := by
  intro x hx
  simp only [encodeByte] at hx
  split_ifs at hx with h₁ h₂
  · have h := formUnreserved_bounds b h₁
    simp at hx
    subst hx
    exact ⟨h.1, h.2.1⟩
  · simp at hx
    omega
  · have hd : b / 16 < 16 := by omega
    have hm : b % 16 < 16 := by omega
    simp at hx
    rcases hx with rfl | rfl | rfl
    · omega
    · exact ⟨(hexDigitChar_ne _ hd).1, (hexDigitChar_ne _ hd).2.1⟩
    · exact ⟨(hexDigitChar_ne _ hm).1, (hexDigitChar_ne _ hm).2.1⟩

theorem mem_encBytes_ne (bs : List Nat) (h : ∀ b ∈ bs, b < 256) :
    ∀ x ∈ encBytes bs, x ≠ 38 ∧ x ≠ 61 := by
  intro x hx
  induction bs with
  | nil => simp [encBytes] at hx
  | cons b bs ih =>
    simp only [encBytes, List.mem_append] at hx
    rcases hx with hx | hx
    · exact mem_encodeByte_ne b (h b (List.mem_cons_self _ _)) x hx
    · exact ih (fun y hy => h y (List.mem_cons_of_mem _ hy)) hx

theorem splitFirstByte_append (sep : Nat) (k v : List Nat) (h : sep ∉ k) :
    splitFirstByte sep (k ++ sep :: v) = (k, v) := by
  induction k with
  | nil => simp [splitFirstByte]
  | cons b k ih =>
    simp at h
    simp only [List.cons_append, splitFirstByte, List.append_eq]
    rw [if_neg fun e => h.1 e.symm, ih h.2]

theorem splitOnByte_of_not_mem (sep : Nat) (xs : List Nat) (h : sep ∉ xs) :
    splitOnByte sep xs = [xs] := by
  induction xs with
  | nil => rfl
  | cons b xs ih =>
    simp at h
    simp only [splitOnByte]
    rw [if_neg fun e => h.1 e.symm, ih h.2]

theorem splitOnByte_append (sep : Nat) (xs ys : List Nat) (h : sep ∉ xs) :
    splitOnByte sep (xs ++ sep :: ys) = xs :: splitOnByte sep ys := by
  induction xs with
  | nil => simp [splitOnByte]
  | cons b xs ih =>
    simp at h
    simp only [List.cons_append, splitOnByte, List.append_eq]
    rw [if_neg fun e => h.1 e.symm, ih h.2]

theorem splitOnByte_joinAmp (parts : List (List Nat)) (hne : parts ≠ [])
    (h : ∀ part ∈ parts, 38 ∉ part) :
    splitOnByte 38 (joinAmp parts) = parts := by
  induction parts with
  | nil => exact absurd rfl hne
  | cons x parts ih =>
    cases parts with
    | nil =>
      simp only [joinAmp]
      exact splitOnByte_of_not_mem 38 x (h x (List.mem_cons_self _ _))
    | cons y rest =>
      simp only [joinAmp]
      rw [splitOnByte_append 38 x _ (h x (List.mem_cons_self _ _)),
        ih (by simp) fun p hp => h p (List.mem_cons_of_mem _ hp)]

theorem parseQuery_joinAmp_encodePairs (pairs : List (List Nat × List Nat))
    (hne : pairs ≠ []) (hok : bytesOk pairs) :
    parseQuery (joinAmp (pairs.map encodePair)) = pairs := by
  have h38 : ∀ part ∈ pairs.map encodePair, 38 ∉ part := by
    intro part hp hmem
    rcases List.mem_map.1 hp with ⟨p, hpmem, rfl⟩
    rcases hok p hpmem with ⟨hk, hv⟩
    simp only [encodePair, List.mem_append, List.mem_cons] at hmem
    rcases hmem with hm | hm | hm
    · exact (mem_encBytes_ne _ hk 38 hm).1 rfl
    · omega
    · exact (mem_encBytes_ne _ hv 38 hm).1 rfl
  unfold parseQuery
  rw [splitOnByte_joinAmp _ (by simpa using hne) h38, List.map_map]
  have : ∀ p ∈ pairs,
      ((fun part =>
          ((decodeBytes (splitFirstByte 61 part).1, decodeBytes (splitFirstByte 61 part).2) :
            List Nat × List Nat)) ∘ encodePair) p = p := by
    intro p hp
    rcases hok p hp with ⟨hk, hv⟩
    have h61 : (61 : Nat) ∉ encBytes p.1 :=
      fun hm => (mem_encBytes_ne _ hk 61 hm).2 rfl
    simp only [Function.comp, encodePair]
    rw [splitFirstByte_append 61 _ _ h61]
    simp [decodeBytes_encBytes _ hk, decodeBytes_encBytes _ hv]
  rw [List.map_congr_left this]
  simp

/-! ## Claim theorems -/

/-- C3: `NetworkListOptions::serialize()` returns `None` exactly when the
parameter map is empty; otherwise it returns a URL-encoded query string
holding exactly the inserted key/value pairs and nothing else — parsing the
query back (split on `&`, split each component at `=`, percent-decode)
recovers precisely the map's pairs. -/
theorem network_list_options_serialize_exact (o : NetworkListOptions) :
    (o.serialize = none ↔ o.params = []) ∧
    ∀ q, o.serialize = some q → bytesOk o.params → parseQuery q = o.params := by
  constructor
  · by_cases h : o.params = [] <;> simp [NetworkListOptions.serialize, h]
  · intro q hq hok
    by_cases h : o.params = []
    · simp [NetworkListOptions.serialize, h] at hq
    · simp [NetworkListOptions.serialize, h] at hq
      rw [← hq]
      exact parseQuery_joinAmp_encodePairs _ h hok

/-- Witness for C3: the empty option set serializes to `None`; the one-pair
set `label ↦ "a b"` serializes to the query `label=a+b` whose parse is
exactly that pair. -/
theorem network_list_options_serialize_exact_witness :
    NetworkListOptions.serialize ⟨[]⟩ = none ∧
    NetworkListOptions.serialize ⟨[([108, 97, 98, 101, 108], [97, 32, 98])]⟩ =
      some [108, 97, 98, 101, 108, 61, 97, 43, 98] ∧
    bytesOk [([108, 97, 98, 101, 108], [97, 32, 98])] ∧
    parseQuery [108, 97, 98, 101, 108, 61, 97, 43, 98] =
      [([108, 97, 98, 101, 108], [97, 32, 98])] := by
  have hok : bytesOk [([108, 97, 98, 101, 108], [97, 32, 98])] := by
    intro p hp
    simp at hp
    subst hp
    constructor <;> intro b hb <;> simp at hb <;> omega
  refine ⟨(network_list_options_serialize_exact ⟨[]⟩).1.mpr rfl, rfl, hok, ?_⟩
  exact (network_list_options_serialize_exact
    ⟨[([108, 97, 98, 101, 108], [97, 32, 98])]⟩).2 _ rfl hok

/-- C8: `Networks::list` sends its GET to the bare `/networks` path when
the filter options are empty, and to `/networks?q` where `q` is the
serialized options otherwise. -/
theorem networks_list_path_query (opts : NetworkListOptions) :
    (opts.params = [] → Networks.listPath opts = networksPathBytes) ∧
    (opts.params ≠ [] → ∃ q, opts.serialize = some q ∧
      Networks.listPath opts = networksPathBytes ++ 63 :: q) := by
  constructor
  · intro h
    simp [Networks.listPath, NetworkListOptions.serialize, h, joinQuestionMark]
  · intro h
    refine ⟨joinAmp (opts.params.map encodePair), ?_, ?_⟩
    · simp [NetworkListOptions.serialize, h]
    · simp [Networks.listPath, NetworkListOptions.serialize, h, joinQuestionMark]

/-- Witness for C8: with no filters the path is `/networks`; with the filter
pair `a ↦ b` the path is `/networks?a=b`. -/
theorem networks_list_path_query_witness :
    Networks.listPath ⟨[]⟩ = networksPathBytes ∧
    ∃ q, NetworkListOptions.serialize ⟨[([97], [98])]⟩ = some q ∧
      Networks.listPath ⟨[([97], [98])]⟩ = networksPathBytes ++ 63 :: q :=
  ⟨(networks_list_path_query ⟨[]⟩).1 rfl,
    (networks_list_path_query ⟨[([97], [98])]⟩).2 (by simp)⟩

/-- C4: for every `NetworkCreateOptions` built via `NetworkCreateOptionsBuilder`
(the `new name` constructor followed by any chain of setter calls),
serializing it and reading the result back as generic JSON yields an object
whose key set is exactly the keys inserted through the builder — `"Name"`
from the constructor plus the fixed key of each setter called — with no
extra keys and no duplicates. -/
theorem create_options_serialize_key_set (name : String) (ops : List CreateOp) :
    (jsonObjKeys ((applyCreateOps ops
      (NetworkCreateOptionsBuilder.new name)).build.serializeJson)).Nodup ∧
    ∀ a, a ∈ jsonObjKeys ((applyCreateOps ops
        (NetworkCreateOptionsBuilder.new name)).build.serializeJson) ↔
      a = "Name" ∨ ∃ op ∈ ops, op.key = a := by
  have hkeys : jsonObjKeys ((applyCreateOps ops
      (NetworkCreateOptionsBuilder.new name)).build.serializeJson) =
      paramKeys (applyCreateOps ops (NetworkCreateOptionsBuilder.new name)).params := rfl
  constructor
  · rw [hkeys]
    exact nodup_paramKeys_applyCreateOps ops _ (by simp [NetworkCreateOptionsBuilder.new])
  · intro a
    rw [hkeys, mem_paramKeys_applyCreateOps]
    simp [NetworkCreateOptionsBuilder.new]
    exact or_comm

/-- C5: on both builders and for every setter (`CreateOp` and `ConnOp`
enumerate all of them), calling a setter twice with values v₁ then v₂ for
the same key leaves, in the subsequently built snapshot, a single entry for
that key holding v₂ — the second call overwrites the first, the two-call
chain builds the same snapshot as the second call alone, and no duplicate
entry appears — after any prior setter chain from the constructor. -/
theorem builder_setter_last_write_wins (name cid : String) (ops : List CreateOp)
    (cops : List ConnOp) (op₁ op₂ : CreateOp) (cop₁ cop₂ : ConnOp)
    (hk : op₁.key = op₂.key) (hck : cop₁.key = cop₂.key) :
    (op₂.apply (op₁.apply (applyCreateOps ops (NetworkCreateOptionsBuilder.new name)))).build =
      (op₂.apply (applyCreateOps ops (NetworkCreateOptionsBuilder.new name))).build ∧
    lookupParam op₂.key
        ((op₂.apply (op₁.apply (applyCreateOps ops (NetworkCreateOptionsBuilder.new name)))).build).params =
      some op₂.value ∧
    countKey op₂.key
        ((op₂.apply (op₁.apply (applyCreateOps ops (NetworkCreateOptionsBuilder.new name)))).build).params = 1 ∧
    (cop₂.apply (cop₁.apply (applyConnOps cops (ContainerConnectionOptionsBuilder.new cid)))).build =
      (cop₂.apply (applyConnOps cops (ContainerConnectionOptionsBuilder.new cid))).build ∧
    lookupParam cop₂.key
        ((cop₂.apply (cop₁.apply (applyConnOps cops (ContainerConnectionOptionsBuilder.new cid)))).build).params =
      some cop₂.value ∧
    countKey cop₂.key
        ((cop₂.apply (cop₁.apply (applyConnOps cops (ContainerConnectionOptionsBuilder.new cid)))).build).params = 1 := by
  have hparams :
      (op₂.apply (op₁.apply (applyCreateOps ops (NetworkCreateOptionsBuilder.new name)))).params =
        insertParam op₂.key op₂.value
          (applyCreateOps ops (NetworkCreateOptionsBuilder.new name)).params := by
    rw [createOp_apply_params, createOp_apply_params, hk, insertParam_insertParam_same]
  have hcparams :
      (cop₂.apply (cop₁.apply (applyConnOps cops (ContainerConnectionOptionsBuilder.new cid)))).params =
        insertParam cop₂.key cop₂.value
          (applyConnOps cops (ContainerConnectionOptionsBuilder.new cid)).params := by
    rw [connOp_apply_params, connOp_apply_params, hck, insertParam_insertParam_same]
  have hnodup := nodup_paramKeys_applyCreateOps ops
    (NetworkCreateOptionsBuilder.new name) (by simp [NetworkCreateOptionsBuilder.new])
  have hcnodup := nodup_paramKeys_applyConnOps cops
    (ContainerConnectionOptionsBuilder.new cid) (by simp [ContainerConnectionOptionsBuilder.new])
  refine ⟨?_, ?_, ?_, ?_, ?_, ?_⟩
  · exact congrArg NetworkCreateOptions.mk (by rw [hparams, createOp_apply_params])
  · show lookupParam op₂.key
        (op₂.apply (op₁.apply (applyCreateOps ops (NetworkCreateOptionsBuilder.new name)))).params =
      some op₂.value
    rw [hparams]
    exact lookupParam_insertParam_self _ _ _
  · show countKey op₂.key
        (op₂.apply (op₁.apply (applyCreateOps ops (NetworkCreateOptionsBuilder.new name)))).params = 1
    rw [hparams]
    exact countKey_insertParam_self _ _ _ hnodup
  · exact congrArg ContainerConnectionOptions.mk (by rw [hcparams, connOp_apply_params])
  · show lookupParam cop₂.key
        (cop₂.apply (cop₁.apply (applyConnOps cops (ContainerConnectionOptionsBuilder.new cid)))).params =
      some cop₂.value
    rw [hcparams]
    exact lookupParam_insertParam_self _ _ _
  · show countKey cop₂.key
        (cop₂.apply (cop₁.apply (applyConnOps cops (ContainerConnectionOptionsBuilder.new cid)))).params = 1
    rw [hcparams]
    exact countKey_insertParam_self _ _ _ hcnodup

/-- Witness for C5 at concrete setters previously not instanced: two `labels`
calls (same key `"Labels"`) collapse to the second one with a single entry,
and two `force` calls (key `"Force"`) likewise. -/
theorem builder_setter_last_write_wins_witness :
    CreateOp.key (CreateOp.labels [("a", "1")]) = CreateOp.key (CreateOp.labels [("a", "2")]) ∧
    ConnOp.key ConnOp.force = ConnOp.key ConnOp.force ∧
    (CreateOp.apply (CreateOp.labels [("a", "2")])
        (CreateOp.apply (CreateOp.labels [("a", "1")]) (NetworkCreateOptionsBuilder.new "net1"))).build =
      (CreateOp.apply (CreateOp.labels [("a", "2")]) (NetworkCreateOptionsBuilder.new "net1")).build ∧
    countKey "Labels"
        ((CreateOp.apply (CreateOp.labels [("a", "2")])
          (CreateOp.apply (CreateOp.labels [("a", "1")]) (NetworkCreateOptionsBuilder.new "net1"))).build).params = 1 ∧
    (ConnOp.apply ConnOp.force
        (ConnOp.apply ConnOp.force (ContainerConnectionOptionsBuilder.new "c1"))).build =
      (ConnOp.apply ConnOp.force (ContainerConnectionOptionsBuilder.new "c1")).build ∧
    countKey "Force"
        ((ConnOp.apply ConnOp.force
          (ConnOp.apply ConnOp.force (ContainerConnectionOptionsBuilder.new "c1"))).build).params = 1 := by
  have h := builder_setter_last_write_wins "net1" "c1" [] []
    (CreateOp.labels [("a", "1")]) (CreateOp.labels [("a", "2")])
    ConnOp.force ConnOp.force rfl rfl
  exact ⟨rfl, rfl, h.1, h.2.2.1, h.2.2.2.1, h.2.2.2.2.2⟩

/-- C6: `build()` snapshots the builder's current parameter map (the clone
carries exactly the current entries), serialization of a snapshot depends
only on the snapshot, and driving the builder further after `build()`
produces a different snapshot while the earlier one still holds the earlier
map — the built value is a defensive copy, not a live view. -/
theorem build_is_defensive_snapshot (b : NetworkCreateOptionsBuilder)
    (c : ContainerConnectionOptionsBuilder) (d : String)
    (o o' : NetworkCreateOptions) :
    b.build.params = b.params ∧
    c.build.params = c.params ∧
    (o.params = o'.params → o.serializeJson = o'.serializeJson) ∧
    (lookupParam "Driver" b.params ≠ some (Json.str d) →
      (b.driver d).build ≠ b.build) ∧
    (lookupParam "Force" c.params ≠ some (Json.bool true) →
      c.force.build ≠ c.build) := by
  refine ⟨rfl, rfl, ?_, ?_, ?_⟩
  · intro h
    simp [NetworkCreateOptions.serializeJson, h]
  · intro h heq
    apply h
    have hp : insertParam "Driver" (Json.str d) b.params = b.params :=
      congrArg NetworkCreateOptions.params heq
    rw [← hp]
    exact lookupParam_insertParam_self _ _ _
  · intro h heq
    apply h
    have hp : insertParam "Force" (Json.bool true) c.params = c.params :=
      congrArg ContainerConnectionOptions.params heq
    rw [← hp]
    exact lookupParam_insertParam_self _ _ _

/-- Witness for C6 at concrete inputs: a builder holding only `"Name"` does
not map `"Driver"` to `"overlay"`, and after setting the driver the new
snapshot differs from the one built before; likewise for `force()` on a
fresh connection builder. -/
theorem build_is_defensive_snapshot_witness :
    (lookupParam "Driver" (NetworkCreateOptionsBuilder.new "net1").params ≠
        some (Json.str "overlay") ∧
      ((NetworkCreateOptionsBuilder.new "net1").driver "overlay").build ≠
        (NetworkCreateOptionsBuilder.new "net1").build) ∧
    (lookupParam "Force" (ContainerConnectionOptionsBuilder.new "c1").params ≠
        some (Json.bool true) ∧
      (ContainerConnectionOptionsBuilder.new "c1").force.build ≠
        (ContainerConnectionOptionsBuilder.new "c1").build) := by
  have h₁ : lookupParam "Driver" (NetworkCreateOptionsBuilder.new "net1").params ≠
      some (Json.str "overlay") := by
    simp [NetworkCreateOptionsBuilder.new, lookupParam]
  have h₂ : lookupParam "Force" (ContainerConnectionOptionsBuilder.new "c1").params ≠
      some (Json.bool true) := by
    simp [ContainerConnectionOptionsBuilder.new, lookupParam]
  have := build_is_defensive_snapshot (NetworkCreateOptionsBuilder.new "net1")
    (ContainerConnectionOptionsBuilder.new "c1") "overlay" ⟨[]⟩ ⟨[]⟩
  exact ⟨⟨h₁, this.2.2.2.1 h₁⟩, ⟨h₂, this.2.2.2.2 h₂⟩⟩

/-- C7: `connect` and `disconnect` are exactly the shared helper
`do_connection` applied to the action strings "connect" and "disconnect";
the helper POSTs the serialized options as a JSON body to
`/networks/{id}/{action}`, matching the spec-side description of both
endpoints, and the `Ok(())` wrapper returns unit on transport success. -/
theorem connect_disconnect_via_do_connection (n : Network)
    (opts : ContainerConnectionOptions) :
    n.connect opts = n.do_connection "connect" opts ∧
    n.disconnect opts = n.do_connection "disconnect" opts ∧
    n.connect opts = specActionRequest n "connect" opts ∧
    n.disconnect opts = specActionRequest n "disconnect" opts ∧
    (∀ s : String, (n.do_connection s opts).method = Method.post ∧
      (n.do_connection s opts).path = "/networks/" ++ n.id ++ "/" ++ s ∧
      (n.do_connection s opts).body = some (Json.obj opts.params)) ∧
    (∀ payload : String, connectionSuccess (Except.ok payload) = Except.ok ()) :=
  ⟨rfl, rfl, rfl, rfl, fun _ => ⟨rfl, rfl, rfl⟩, fun _ => rfl⟩

/-- C10: `Networks::get` constructs the `Network` handle purely — it is
`Network::new` on the shared docker handle and the given id, it issues no
request, and the `id()` getter returns the given string unchanged. -/
theorem networks_get_id_roundtrip (d : Docker) (s : String) :
    (Networks.new d).get s = Network.new d s ∧
    ((Networks.new d).get s).id = s ∧
    ((Networks.new d).get s).idGetter = s ∧
    ((Networks.new d).get s).docker = d :=
  ⟨rfl, rfl, rfl, rfl⟩

/-! ## Lemmas about the attach demultiplexer -/

theorem take_len_append (xs ys : List Nat) : (xs ++ ys).take xs.length = xs := by
  induction xs with
  | nil => simp
  | cons x xs ih => simp [ih]

theorem drop_len_append (xs ys : List Nat) : (xs ++ ys).drop xs.length = ys := by
  induction xs with
  | nil => simp
  | cons x xs ih => simp [ih]

theorem be32_be32Bytes (n : Nat) (h : n < 4294967296) :
    be32 (n / 16777216 % 256) (n / 65536 % 256) (n / 256 % 256) (n % 256) = n := by
  simp only [be32]
  omega

theorem demuxGo_encodeFrames (frames : List (Nat × List Nat)) (fuel : Nat)
    (hwf : wellFormedFrames frames) (hfuel : (encodeFrames frames).length ≤ fuel) :
    demuxGo fuel (encodeFrames frames) = some (frames.map tagChunk) := by
  induction frames generalizing fuel with
  | nil => cases fuel <;> rfl
  | cons f fs ih =>
    obtain ⟨t, p⟩ := f
    rcases hwf _ (List.mem_cons_self _ _) with ⟨ht, hp⟩
    have hb : encodeFrames ((t, p) :: fs) =
        t :: ((p.length / 16777216 % 256) :: (p.length / 65536 % 256) ::
          (p.length / 256 % 256) :: (p.length % 256) :: (p ++ encodeFrames fs)) := by
      simp [encodeFrames, encodeFrame, be32Bytes]
    rw [hb] at hfuel ⊢
    have hlen5 : p.length + (encodeFrames fs).length + 5 ≤ fuel := by
      simpa [List.length_append] using hfuel
    cases fuel with
    | zero => omega
    | succ f' =>
      simp only [demuxGo]
      rw [be32_be32Bytes _ hp]
      have hle : p.length ≤ (p ++ encodeFrames fs).length := by
        simp [List.length_append]
      rw [if_pos hle]
      have hrec : demuxGo f' (encodeFrames fs) = some (fs.map tagChunk) :=
        ih f' (fun g hg => hwf g (List.mem_cons_of_mem _ hg)) (by omega)
      interval_cases t <;>
        simp [tagOf, tagChunk, hrec, take_len_append, drop_len_append]

/-- C9: on every well-formed frame sequence the demultiplexer yields exactly
one tagged chunk per frame, classified by the frame's stream-type
discriminant, with payload bytes, boundaries and arrival order preserved;
in particular the two raw frames `[1, len=5, "hello"]` and `[2, len=3,
"err"]` yield exactly `[StdOut "hello", StdErr "err"]` in that order. -/
theorem attach_demux_frames (frames : List (Nat × List Nat))
    (hwf : wellFormedFrames frames) :
    demux (encodeFrames frames) = some (frames.map tagChunk) ∧
    demux [1, 0, 0, 0, 5, 104, 101, 108, 108, 111, 2, 0, 0, 0, 3, 101, 114, 114] =
      some [TtyChunk.stdOut [104, 101, 108, 108, 111], TtyChunk.stdErr [101, 114, 114]] :=
  ⟨demuxGo_encodeFrames frames _ hwf le_rfl, rfl⟩

/-- Witness for C9 at the spec's concrete input: the frame list
`[(1, "hello"), (2, "err")]` is well formed and demultiplexes to
`[StdOut "hello", StdErr "err"]`. -/
theorem attach_demux_frames_witness :
    wellFormedFrames [(1, [104, 101, 108, 108, 111]), (2, [101, 114, 114])] ∧
    demux (encodeFrames [(1, [104, 101, 108, 108, 111]), (2, [101, 114, 114])]) =
      some [TtyChunk.stdOut [104, 101, 108, 108, 111], TtyChunk.stdErr [101, 114, 114]] := by
  have hwf : wellFormedFrames [(1, [104, 101, 108, 108, 111]), (2, [101, 114, 114])] := by
    intro f hf
    simp at hf
    rcases hf with rfl | rfl <;> exact ⟨by omega, by simp⟩
  exact ⟨hwf, (attach_demux_frames _ hwf).1⟩

/-- C2 counterexample: the raw frame `[0, len=1, "x"]` (discriminant 0,
StdIn) on the read direction is NOT reported as a `ProtocolViolation` error:
the demultiplexer succeeds and delivers it as a `StdIn` chunk, and the
repository's consumer (`print_chunk`) handles that chunk as an impossible
case — `unreachable!()`, a panic — contradicting the claim that such a frame
is surfaced as a `ProtocolViolation` error and never handled as an
impossible case. -/
theorem stdin_frame_not_protocol_error :
    demux [0, 0, 0, 0, 1, 120] = some [TtyChunk.stdIn [120]] ∧
    attachExampleRun [0, 0, 0, 0, 1, 120] = some [PrintOutcome.panickedUnreachable] ∧
    attachExampleRun [0, 0, 0, 0, 1, 120] ≠ none := by
  refine ⟨rfl, rfl, ?_⟩
  intro h
  rw [show attachExampleRun [0, 0, 0, 0, 1, 120] =
    some [PrintOutcome.panickedUnreachable] from rfl] at h
  exact Option.noConfusion h

/-- C2 amended: a frame with stream-type discriminant 0 (StdIn) arriving in
the read direction is delivered to the consumer as a `TtyChunk::StdIn` chunk
with its payload intact — it is neither dropped nor misclassified as StdOut
or StdErr output — and the repository's consumer handles it as an impossible
case (`unreachable!()`, a panic), not as a `ProtocolViolation` error. -/
theorem stdin_frame_delivered_and_panics (payload : List Nat)
    (h : payload.length < 4294967296) :
    demux (encodeFrame 0 payload) = some [TtyChunk.stdIn payload] ∧
    print_chunk (TtyChunk.stdIn payload) = PrintOutcome.panickedUnreachable ∧
    (∀ bs, print_chunk (TtyChunk.stdIn payload) ≠ PrintOutcome.stdoutLine bs) ∧
    (∀ bs, print_chunk (TtyChunk.stdIn payload) ≠ PrintOutcome.stderrLine bs) := by
  refine ⟨?_, rfl, ?_, ?_⟩
  · have hwf : wellFormedFrames [(0, payload)] := by
      intro f hf
      simp at hf
      subst hf
      exact ⟨by omega, h⟩
    have hd := demuxGo_encodeFrames [(0, payload)]
      (encodeFrames [(0, payload)]).length hwf le_rfl
    simpa [demux, encodeFrames, tagChunk] using hd
  · intro bs hbs
    exact PrintOutcome.noConfusion hbs
  · intro bs hbs
    exact PrintOutcome.noConfusion hbs

/-- Witness for C2's amended claim at the concrete payload `"x"`. -/
theorem stdin_frame_delivered_and_panics_witness :
    ([120] : List Nat).length < 4294967296 ∧
    demux (encodeFrame 0 [120]) = some [TtyChunk.stdIn [120]] ∧
    print_chunk (TtyChunk.stdIn [120]) = PrintOutcome.panickedUnreachable := by
  have h : ([120] : List Nat).length < 4294967296 := by simp
  exact ⟨h, (stdin_frame_delivered_and_panics [120] h).1,
    (stdin_frame_delivered_and_panics [120] h).2.1⟩

/-- C1 evaluated: `inspect` does send `GET /networks/{id}` and an unknown id
does yield the 404 ApiError; but on success the code decodes the body at its
declared return type `NetworkInfo` — the rx/tx-counter stats shape — not the
`NetworkDetails` shape, so a daemon response with the documented
NetworkInspect details shape (which `decodeNetworkDetails` accepts) makes
`inspect` fail with a decode error instead of returning the details
record. -/
theorem inspect_decodes_stats_shape_not_details :
    Network.inspectRequest ⟨⟨"tcp://127.0.0.1:80"⟩, "bridge"⟩ =
      { method := Method.get, path := "/networks/bridge", body := none } ∧
    decodeNetworkDetails sampleInspectBody = some sampleDetails ∧
    decodeNetworkInfo sampleInspectBody = none ∧
    Network.inspect sampleDaemon ⟨⟨"tcp://127.0.0.1:80"⟩, "bridge"⟩ =
      Except.error Error.decode ∧
    Network.inspect sampleDaemon ⟨⟨"tcp://127.0.0.1:80"⟩, "missing"⟩ =
      Except.error (Error.api 404 "network missing not found") :=
  ⟨rfl, rfl, rfl, rfl, rfl⟩

end DockerApi
